import Mathlib

/-!
Shallow embedding of `SceneManager.cpp` (SNHU CS330 coursework, two versions:
`3-2_Assignment` and `7-1_FinalProjectMilestones`).

The class state kept by the claims is the texture registry
(`m_textureIDs`, a 16-slot array of `{GLuint ID; std::string tag}`, together
with the count `m_loadedTextures`) and the material list `m_objectMaterials`.
The array is modelled as a total function from indices to entries; the C++
array's capacity (16, per the comments "there are up to 16 texture slots")
appears in the bounds claims as an explicit bound.  OpenGL and stb_image are
external: the decoded image is an input (`Option Image`, `none` = decode
failure), and `glGenTextures` results are inputs (`Nat` handles).  Console
output and GL calls are returned as explicit traces.  C++ `float` values are
idealised as `ℚ`; no claim depends on rounding.
-/

namespace CS330

/-- A 3-component vector (`glm::vec3`), over `ℚ`. -/
structure Vec3 where
  x : ℚ
  y : ℚ
  z : ℚ
deriving DecidableEq, Repr

/-- One slot of the texture registry: `TEXTURE_ID { GLuint ID; std::string tag }`. -/
structure TextureEntry where
  ID : Nat
  tag : String
deriving DecidableEq, Repr

/-- `OBJECT_MATERIAL`: ambient/diffuse/specular colors, strengths, shininess, tag. -/
structure ObjectMaterial where
  ambientColor : Vec3
  ambientStrength : ℚ
  diffuseColor : Vec3
  specularColor : Vec3
  shininess : ℚ
  tag : String
deriving DecidableEq, Repr

/-- The `SceneManager` members the claims are about: the texture registry
array (as a total function; the C++ array has 16 slots), its count, and the
material list. -/
structure SceneState where
  m_textureIDs : Nat → TextureEntry
  m_loadedTextures : Nat
  m_objectMaterials : List ObjectMaterial

/-- What `stbi_load` reports on success: width, height and channel count. -/
structure Image where
  width : Int
  height : Int
  colorChannels : Int
deriving DecidableEq, Repr

/-- Result of `CreateGLTexture`: the returned bool, the updated object state,
the console lines printed, and the registry indices written. -/
structure CreateResult where
  ret : Bool
  state : SceneState
  console : List String
  writes : List Nat

/-- The success tail of `CreateGLTexture` (lines 113-117 of the 7-1 file):
`m_textureIDs[m_loadedTextures].ID = textureID;`
`m_textureIDs[m_loadedTextures].tag = tag;` `m_loadedTextures++;` `return true;`. -/
def registerTexture (s : SceneState) (tag : String) (textureID : Nat)
    (console : List String) : CreateResult :=
  { ret := true
    state :=
      { s with
        m_textureIDs := fun i =>
          if i = s.m_loadedTextures then { ID := textureID, tag := tag }
          else s.m_textureIDs i
        m_loadedTextures := s.m_loadedTextures + 1 }
    console := console
    writes := [s.m_loadedTextures] }

/-- `SceneManager::CreateGLTexture(filename, tag)` (7-1 file, lines 60-124).
`image` is what `stbi_load(filename, ...)` decoded (`none` = failure);
`textureID` is the handle `glGenTextures` produced.  The GL
parameter/`glTexImage2D`/mipmap calls have no effect on the modelled state. -/
def CreateGLTexture (s : SceneState) (filename : String) (tag : String)
    (image : Option Image) (textureID : Nat) : CreateResult :=
  match image with
  | some img =>
      let loadedMsg := "Successfully loaded image:" ++ filename ++ ", width:" ++
        toString img.width ++ ", height:" ++ toString img.height ++
        ", channels:" ++ toString img.colorChannels
      if img.colorChannels = 3 then
        registerTexture s tag textureID [loadedMsg]
      else if img.colorChannels = 4 then
        registerTexture s tag textureID [loadedMsg]
      else
        { ret := false
          state := s
          console := [loadedMsg,
            "Not implemented to handle image with " ++
              toString img.colorChannels ++ " channels"]
          writes := [] }
  | none =>
      { ret := false
        state := s
        console := ["Could not load image:" ++ filename]
        writes := [] }

/-- The console line a failed `CreateGLTexture` call ends with. -/
def failureLine (filename : String) (image : Option Image) : String :=
  match image with
  | none => "Could not load image:" ++ filename
  | some img =>
      "Not implemented to handle image with " ++ toString img.colorChannels ++
        " channels"

/-- `GL_TEXTURE0`. -/
def GL_TEXTURE0 : Nat := 33984

/-- The loop of `SceneManager::BindGLTextures` (7-1 file, lines 134-139):
iteration `i` reads `m_textureIDs[i]` and issues
`glActiveTexture(GL_TEXTURE0 + i); glBindTexture(GL_TEXTURE_2D, m_textureIDs[i].ID)`.
Each element records (read index, glActiveTexture argument, bound ID). -/
def bindGLTexturesLoop (s : SceneState) (i : Nat) : List (Nat × Nat × Nat) :=
  if i < s.m_loadedTextures then
    (i, GL_TEXTURE0 + i, (s.m_textureIDs i).ID) :: bindGLTexturesLoop s (i + 1)
  else []
termination_by s.m_loadedTextures - i

/-- `SceneManager::BindGLTextures()` (7-1 file, lines 132-140). -/
def BindGLTextures (s : SceneState) : List (Nat × Nat × Nat) :=
  bindGLTexturesLoop s 0

/-- The loop of `SceneManager::DestroyGLTextures` (7-1 file, lines 150-153):
iteration `i` executes `glGenTextures(1, &m_textureIDs[i].ID)`, which stores a
freshly generated texture name (modelled by `glGen i`) into the entry's `ID`
field.  (The source calls `glGenTextures`, not `glDeleteTextures`.) -/
def destroyGLTexturesLoop (s : SceneState) (glGen : Nat → Nat) (i : Nat) :
    SceneState :=
  if i < s.m_loadedTextures then
    destroyGLTexturesLoop
      { s with
        m_textureIDs := fun k =>
          if k = i then { s.m_textureIDs i with ID := glGen i }
          else s.m_textureIDs k }
      glGen (i + 1)
  else s
termination_by s.m_loadedTextures - i

/-- `SceneManager::DestroyGLTextures()` (7-1 file, lines 148-154). -/
def DestroyGLTextures (s : SceneState) (glGen : Nat → Nat) : SceneState :=
  destroyGLTexturesLoop s glGen 0

/-- The while loop of `SceneManager::FindTextureID` (7-1 file, lines 168-177),
started at `index`: returns the `int` result and the list of registry indices
it read. -/
def findTextureIDLoop (s : SceneState) (tag : String) (index : Nat) :
    Int × List Nat :=
  if index < s.m_loadedTextures then
    if (s.m_textureIDs index).tag = tag then
      (((s.m_textureIDs index).ID : Int), [index])
    else
      let r := findTextureIDLoop s tag (index + 1)
      (r.1, index :: r.2)
  else (-1, [])
termination_by s.m_loadedTextures - index

/-- `SceneManager::FindTextureID(tag)` (7-1 file, lines 162-180). -/
def FindTextureID (s : SceneState) (tag : String) : Int :=
  (findTextureIDLoop s tag 0).1

/-- The registry indices `FindTextureID` reads. -/
def findTextureIDReads (s : SceneState) (tag : String) : List Nat :=
  (findTextureIDLoop s tag 0).2

/-- The while loop of `SceneManager::FindTextureSlot` (7-1 file, lines
194-203), started at `index`: returns the `int` result and the list of
registry indices it read. -/
def findTextureSlotLoop (s : SceneState) (tag : String) (index : Nat) :
    Int × List Nat :=
  if index < s.m_loadedTextures then
    if (s.m_textureIDs index).tag = tag then
      ((index : Int), [index])
    else
      let r := findTextureSlotLoop s tag (index + 1)
      (r.1, index :: r.2)
  else (-1, [])
termination_by s.m_loadedTextures - index

/-- `SceneManager::FindTextureSlot(tag)` (7-1 file, lines 188-206). -/
def FindTextureSlot (s : SceneState) (tag : String) : Int :=
  (findTextureSlotLoop s tag 0).1

/-- The registry indices `FindTextureSlot` reads. -/
def findTextureSlotReads (s : SceneState) (tag : String) : List Nat :=
  (findTextureSlotLoop s tag 0).2

/-- The five fields `FindMaterial` copies into its output parameter
(everything of `OBJECT_MATERIAL` except `tag`). -/
structure MaterialValues where
  ambientColor : Vec3
  ambientStrength : ℚ
  diffuseColor : Vec3
  specularColor : Vec3
  shininess : ℚ
deriving DecidableEq, Repr

/-- The while loop of `SceneManager::FindMaterial` (7-1 file, lines 221-238):
`some v` = the loop matched and wrote the five fields `v` to the output
parameter, `none` = the loop ended without writing it. -/
def findMaterialLoop (mats : List ObjectMaterial) (tag : String) (index : Nat) :
    Option MaterialValues :=
  if h : index < mats.length then
    if (mats.get ⟨index, h⟩).tag = tag then
      some
        { ambientColor := (mats.get ⟨index, h⟩).ambientColor
          ambientStrength := (mats.get ⟨index, h⟩).ambientStrength
          diffuseColor := (mats.get ⟨index, h⟩).diffuseColor
          specularColor := (mats.get ⟨index, h⟩).specularColor
          shininess := (mats.get ⟨index, h⟩).shininess }
    else findMaterialLoop mats tag (index + 1)
  else none
termination_by mats.length - index

/-- `SceneManager::FindMaterial(tag, material)` (7-1 file, lines 214-241):
the returned bool, and what was written to the output parameter (`none` =
left unwritten).  After the empty-list check `return(false)`, the function
ends with `return(true)` whether or not the loop found the tag. -/
def FindMaterial (s : SceneState) (tag : String) : Bool × Option MaterialValues :=
  if s.m_objectMaterials.length = 0 then (false, none)
  else (true, findMaterialLoop s.m_objectMaterials tag 0)

/-- The `light1` material of `DefineObjectMaterials` (7-1 file, lines 416-422);
`float` literals idealised as rationals. -/
def light1 : ObjectMaterial :=
  { ambientColor := ⟨1/5, 1/5, 1/5⟩
    ambientStrength := 1
    diffuseColor := ⟨2/5, 2/5, 2/5⟩
    specularColor := ⟨1/5, 1/5, 1/5⟩
    shininess := 1
    tag := "light1" }

/-- The `light2` material of `DefineObjectMaterials` (7-1 file, lines 426-432). -/
def light2 : ObjectMaterial :=
  { ambientColor := ⟨1/10, 1/10, 1/10⟩
    ambientStrength := 1
    diffuseColor := ⟨2/5, 2/5, 2/5⟩
    specularColor := ⟨4/5, 4/5, 4/5⟩
    shininess := 10
    tag := "light2" }

/-- `SceneManager::DefineObjectMaterials()` (7-1 file, lines 410-435):
two `push_back` calls on `m_objectMaterials`. -/
def DefineObjectMaterials (s : SceneState) : SceneState :=
  { s with m_objectMaterials := s.m_objectMaterials ++ [light1] ++ [light2] }

/-- A call `SetShaderTexture` makes on the shader manager. -/
inductive ShaderCall where
  | setInt (name : String) (value : Int)
  | setSampler2D (name : String) (value : Int)
deriving DecidableEq, Repr

/-- `SceneManager::SetShaderTexture(textureTag)` (7-1 file, lines 314-325):
when the shader manager pointer is non-null, sets `bUseTexture` to `true`
(C++ `bool` passed to `setIntValue`, so `1`) and passes
`FindTextureSlot(textureTag)` to the `objectTexture` sampler uniform. -/
def SetShaderTexture (s : SceneState) (shaderPresent : Bool)
    (textureTag : String) : List ShaderCall :=
  if shaderPresent then
    [ShaderCall.setInt "bUseTexture" 1,
     ShaderCall.setSampler2D "objectTexture" (FindTextureSlot s textureTag)]
  else []

/-- The five `(filename, tag)` pairs of `LoadSceneTextures`, in call order. -/
def sceneTexturePairs : List (String × String) :=
  [("textures/keyboard.jpg", "keyboard"),
   ("textures/mousepad.jpg", "mousepad"),
   ("textures/desk.jpg", "desk"),
   ("textures/monitor.jpg", "monitor"),
   ("textures/wall.jpg", "wall")]

/-- Whether a `CreateGLTexture` call on a decoded image succeeds: the decode
worked and the channel count is 3 or 4. -/
def loadSucceeds (image : Option Image) : Bool :=
  match image with
  | some img => img.colorChannels == 3 || img.colorChannels == 4
  | none => false

/-- `SceneManager::LoadSceneTextures()` (7-1 file, lines 381-402): the five
`CreateGLTexture` calls in source order (each return value is assigned to
`bReturn` and never inspected), then `BindGLTextures()`.  `decode` gives
`stbi_load`'s result per filename; `glGen k` is the handle `glGenTextures`
yields during the `k`-th call. -/
def LoadSceneTextures (s : SceneState) (decode : String → Option Image)
    (glGen : Nat → Nat) : SceneState × List (Nat × Nat × Nat) :=
  let r1 := CreateGLTexture s "textures/keyboard.jpg" "keyboard"
    (decode "textures/keyboard.jpg") (glGen 0)
  let r2 := CreateGLTexture r1.state "textures/mousepad.jpg" "mousepad"
    (decode "textures/mousepad.jpg") (glGen 1)
  let r3 := CreateGLTexture r2.state "textures/desk.jpg" "desk"
    (decode "textures/desk.jpg") (glGen 2)
  let r4 := CreateGLTexture r3.state "textures/monitor.jpg" "monitor"
    (decode "textures/monitor.jpg") (glGen 3)
  let r5 := CreateGLTexture r4.state "textures/wall.jpg" "wall"
    (decode "textures/wall.jpg") (glGen 4)
  (r5.state, BindGLTextures r5.state)

/-- The tags of the loads of `LoadSceneTextures` that succeed under `decode`,
in call order. -/
def successTags (decode : String → Option Image) : List String :=
  sceneTexturePairs.filterMap fun p =>
    if loadSucceeds (decode p.1) then some p.2 else none

/-- The tags stored in the first `m_loadedTextures` registry slots, in order. -/
def registryTags (s : SceneState) : List String :=
  (List.range s.m_loadedTextures).map fun i => (s.m_textureIDs i).tag

/-- 4x4 matrices over `ℚ` (`glm::mat4` idealised). -/
abbrev Mat4 := Matrix (Fin 4) (Fin 4) ℚ

/-- `glm::scale(v)`. -/
def glmScale (v : Vec3) : Mat4 :=
  !![v.x, 0, 0, 0; 0, v.y, 0, 0; 0, 0, v.z, 0; 0, 0, 0, 1]

/-- `glm::translate(v)`. -/
def glmTranslate (v : Vec3) : Mat4 :=
  !![1, 0, 0, v.x; 0, 1, 0, v.y; 0, 0, 1, v.z; 0, 0, 0, 1]

/-- `glm::rotate(angle, vec3(1,0,0))`, with `c`/`s` the cosine and sine of the
angle (the axis is unit, so glm's normalisation is the identity). -/
def glmRotateX (c s : ℚ) : Mat4 :=
  !![1, 0, 0, 0; 0, c, -s, 0; 0, s, c, 0; 0, 0, 0, 1]

/-- `glm::rotate(angle, vec3(0,1,0))`. -/
def glmRotateY (c s : ℚ) : Mat4 :=
  !![c, 0, s, 0; 0, 1, 0, 0; -s, 0, c, 0; 0, 0, 0, 1]

/-- `glm::rotate(angle, vec3(0,0,1))`. -/
def glmRotateZ (c s : ℚ) : Mat4 :=
  !![c, -s, 0, 0; s, c, 0, 0; 0, 0, 1, 0; 0, 0, 0, 1]

/-- `SceneManager::SetTransformations` of the `3-2_Assignment` file (lines
58-90).  The rotation angles enter through the cosine/sine of
`glm::radians(XrotationDegrees)` etc. (`cX`/`sX`, ...), since the claim is
about the composition order, not trigonometry.  Returns the computed
`modelView` matrix and the shader call made (`none` when the shader manager
pointer is null). -/
def SetTransformations_3_2 (cX sX cY sY cZ sZ : ℚ)
    (scaleXYZ positionXYZ : Vec3) (shaderPresent : Bool) :
    Mat4 × Option (String × Mat4) :=
  let scale := glmScale scaleXYZ
  let rotationX := glmRotateX cX sX
  let rotationY := glmRotateY cY sY
  let rotationZ := glmRotateZ cZ sZ
  let translation := glmTranslate positionXYZ
  let modelView := translation * rotationX * rotationY * rotationZ * scale
  (modelView, if shaderPresent then some ("model", modelView) else none)

/-- `SceneManager::SetTransformations` of the `7-1_FinalProjectMilestones`
file (lines 249-279); the body is line-for-line the computation of the 3-2
version. -/
def SetTransformations_7_1 (cX sX cY sY cZ sZ : ℚ)
    (scaleXYZ positionXYZ : Vec3) (shaderPresent : Bool) :
    Mat4 × Option (String × Mat4) :=
  let scale := glmScale scaleXYZ
  let rotationX := glmRotateX cX sX
  let rotationY := glmRotateY cY sY
  let rotationZ := glmRotateZ cZ sZ
  let translation := glmTranslate positionXYZ
  let modelView := translation * rotationX * rotationY * rotationZ * scale
  (modelView, if shaderPresent then some ("model", modelView) else none)

/-- Modelled from the spec: componentwise scaling of a point, the action the
spec's word `scale(scaleXYZ)` names. -/
def scaleVec (sc v : Vec3) : Vec3 :=
  ⟨sc.x * v.x, sc.y * v.y, sc.z * v.z⟩

/-- Modelled from the spec: rotation of a point about the X axis,
`rotateX(radians(X))` as an action on points. -/
def rotateXVec (c s : ℚ) (v : Vec3) : Vec3 :=
  ⟨v.x, c * v.y - s * v.z, s * v.y + c * v.z⟩

/-- Modelled from the spec: rotation of a point about the Y axis. -/
def rotateYVec (c s : ℚ) (v : Vec3) : Vec3 :=
  ⟨c * v.x + s * v.z, v.y, c * v.z - s * v.x⟩

/-- Modelled from the spec: rotation of a point about the Z axis. -/
def rotateZVec (c s : ℚ) (v : Vec3) : Vec3 :=
  ⟨c * v.x - s * v.y, s * v.x + c * v.y, v.z⟩

/-- Modelled from the spec: translation of a point, `translate(positionXYZ)`
as an action on points. -/
def translateVec (t v : Vec3) : Vec3 :=
  ⟨t.x + v.x, t.y + v.y, t.z + v.z⟩

/-- A point as a homogeneous column vector. -/
def homog (v : Vec3) : Fin 4 → ℚ :=
  ![v.x, v.y, v.z, 1]

/-- A fresh `SceneManager`: empty registry, no materials. -/
def emptyScene : SceneState :=
  { m_textureIDs := fun _ => { ID := 0, tag := "" }
    m_loadedTextures := 0
    m_objectMaterials := [] }

/-- A registry holding one texture, tag `"desk"`, GL handle 7. -/
def oneTextureScene : SceneState :=
  { m_textureIDs := fun i =>
      if i = 0 then { ID := 7, tag := "desk" } else { ID := 0, tag := "" }
    m_loadedTextures := 1
    m_objectMaterials := [] }

/-- Both find loops, started at `index`, characterised together: either no
entry from `index` on (below the count) carries `tag` and both return `-1`,
or there is a first matching entry `j` and they return its ID and `j`
respectively. -/
theorem findLoops_spec (s : SceneState) (tag : String) (index : Nat) :
    ((∀ k, index ≤ k → k < s.m_loadedTextures → (s.m_textureIDs k).tag ≠ tag) ∧
      (findTextureIDLoop s tag index).1 = -1 ∧
      (findTextureSlotLoop s tag index).1 = -1)
    ∨ (∃ j, index ≤ j ∧ j < s.m_loadedTextures ∧ (s.m_textureIDs j).tag = tag ∧
        (∀ k, index ≤ k → k < j → (s.m_textureIDs k).tag ≠ tag) ∧
        (findTextureIDLoop s tag index).1 = ((s.m_textureIDs j).ID : Int) ∧
        (findTextureSlotLoop s tag index).1 = (j : Int)) := by
  suffices h : ∀ n index, s.m_loadedTextures - index ≤ n →
      ((∀ k, index ≤ k → k < s.m_loadedTextures → (s.m_textureIDs k).tag ≠ tag) ∧
        (findTextureIDLoop s tag index).1 = -1 ∧
        (findTextureSlotLoop s tag index).1 = -1)
      ∨ (∃ j, index ≤ j ∧ j < s.m_loadedTextures ∧ (s.m_textureIDs j).tag = tag ∧
          (∀ k, index ≤ k → k < j → (s.m_textureIDs k).tag ≠ tag) ∧
          (findTextureIDLoop s tag index).1 = ((s.m_textureIDs j).ID : Int) ∧
          (findTextureSlotLoop s tag index).1 = (j : Int)) by
    exact h (s.m_loadedTextures - index) index le_rfl
  intro n
  induction n with
  | zero =>
    intro index hn
    have hge : ¬ index < s.m_loadedTextures := by omega
    left
    refine ⟨fun k hk hk2 => absurd (lt_of_le_of_lt hk hk2) hge, ?_, ?_⟩
    · rw [findTextureIDLoop]; simp [hge]
    · rw [findTextureSlotLoop]; simp [hge]
  | succ n ih =>
    intro index hn
    by_cases hlt : index < s.m_loadedTextures
    · by_cases htag : (s.m_textureIDs index).tag = tag
      · right
        refine ⟨index, le_rfl, hlt, htag, fun k hk hk2 => absurd hk (by omega), ?_, ?_⟩
        · rw [findTextureIDLoop]; simp [hlt, htag]
        · rw [findTextureSlotLoop]; simp [hlt, htag]
      · have hid : (findTextureIDLoop s tag index).1 =
            (findTextureIDLoop s tag (index + 1)).1 := by
          rw [findTextureIDLoop]; simp [hlt, htag]
        have hslot : (findTextureSlotLoop s tag index).1 =
            (findTextureSlotLoop s tag (index + 1)).1 := by
          rw [findTextureSlotLoop]; simp [hlt, htag]
        rcases ih (index + 1) (by omega) with ⟨hnone, h1, h2⟩ |
          ⟨j, hj1, hj2, hj3, hj4, hj5, hj6⟩
        · left
          refine ⟨fun k hk hk2 => ?_, by rw [hid]; exact h1, by rw [hslot]; exact h2⟩
          rcases eq_or_lt_of_le hk with rfl | hk2'
          · exact htag
          · exact hnone k hk2' hk2
        · right
          refine ⟨j, by omega, hj2, hj3, fun k hk hk2 => ?_,
            by rw [hid]; exact hj5, by rw [hslot]; exact hj6⟩
          rcases eq_or_lt_of_le hk with rfl | hk2'
          · exact htag
          · exact hj4 k hk2' hk2
    · left
      refine ⟨fun k hk hk2 => absurd (lt_of_le_of_lt hk hk2) hlt, ?_, ?_⟩
      · rw [findTextureIDLoop]; simp [hlt]
      · rw [findTextureSlotLoop]; simp [hlt]

/-- Every index the `FindTextureID` loop reads lies in `[index, m_loadedTextures)`. -/
theorem findTextureIDLoop_reads_lt (s : SceneState) (tag : String) :
    ∀ n index, s.m_loadedTextures - index ≤ n →
      ∀ i ∈ (findTextureIDLoop s tag index).2, index ≤ i ∧ i < s.m_loadedTextures := by
  intro n
  induction n with
  | zero =>
    intro index hn i hi
    have hge : ¬ index < s.m_loadedTextures := by omega
    rw [findTextureIDLoop] at hi
    simp [hge] at hi
  | succ n ih =>
    intro index hn i hi
    by_cases hlt : index < s.m_loadedTextures
    · by_cases htag : (s.m_textureIDs index).tag = tag
      · rw [findTextureIDLoop] at hi
        simp [hlt, htag] at hi
        omega
      · rw [findTextureIDLoop] at hi
        simp [hlt, htag] at hi
        rcases hi with rfl | hi
        · omega
        · have := ih (index + 1) (by omega) i hi
          omega
    · rw [findTextureIDLoop] at hi
      simp [hlt] at hi

/-- Every index the `FindTextureSlot` loop reads lies in `[index, m_loadedTextures)`. -/
theorem findTextureSlotLoop_reads_lt (s : SceneState) (tag : String) :
    ∀ n index, s.m_loadedTextures - index ≤ n →
      ∀ i ∈ (findTextureSlotLoop s tag index).2, index ≤ i ∧ i < s.m_loadedTextures := by
  intro n
  induction n with
  | zero =>
    intro index hn i hi
    have hge : ¬ index < s.m_loadedTextures := by omega
    rw [findTextureSlotLoop] at hi
    simp [hge] at hi
  | succ n ih =>
    intro index hn i hi
    by_cases hlt : index < s.m_loadedTextures
    · by_cases htag : (s.m_textureIDs index).tag = tag
      · rw [findTextureSlotLoop] at hi
        simp [hlt, htag] at hi
        omega
      · rw [findTextureSlotLoop] at hi
        simp [hlt, htag] at hi
        rcases hi with rfl | hi
        · omega
        · have := ih (index + 1) (by omega) i hi
          omega
    · rw [findTextureSlotLoop] at hi
      simp [hlt] at hi

/-- Every element of the `BindGLTextures` loop output records a read index in
`[index, m_loadedTextures)`, the unit `GL_TEXTURE0 +` that index, and that
slot's ID. -/
theorem bindGLTexturesLoop_elts (s : SceneState) :
    ∀ n index, s.m_loadedTextures - index ≤ n →
      ∀ b ∈ bindGLTexturesLoop s index, index ≤ b.1 ∧ b.1 < s.m_loadedTextures ∧
        b.2 = (GL_TEXTURE0 + b.1, (s.m_textureIDs b.1).ID) := by
  intro n
  induction n with
  | zero =>
    intro index hn b hb
    have hge : ¬ index < s.m_loadedTextures := by omega
    rw [bindGLTexturesLoop] at hb
    simp [hge] at hb
  | succ n ih =>
    intro index hn b hb
    by_cases hlt : index < s.m_loadedTextures
    · rw [bindGLTexturesLoop] at hb
      simp [hlt] at hb
      rcases hb with rfl | hb
      · exact ⟨le_rfl, hlt, rfl⟩
      · have := ih (index + 1) (by omega) b hb
        exact ⟨by omega, this.2.1, this.2.2⟩
    · rw [bindGLTexturesLoop] at hb
      simp [hlt] at hb

/-- Conversely, every in-range slot is bound by the `BindGLTextures` loop. -/
theorem bindGLTexturesLoop_mem (s : SceneState) :
    ∀ n index j, s.m_loadedTextures - index ≤ n → index ≤ j →
      j < s.m_loadedTextures →
      (j, GL_TEXTURE0 + j, (s.m_textureIDs j).ID) ∈ bindGLTexturesLoop s index := by
  intro n
  induction n with
  | zero =>
    intro index j hn hj1 hj2
    omega
  | succ n ih =>
    intro index j hn hj1 hj2
    have hlt : index < s.m_loadedTextures := by omega
    rw [bindGLTexturesLoop]
    simp [hlt]
    rcases eq_or_lt_of_le hj1 with rfl | hj'
    · left; exact ⟨rfl, rfl⟩
    · right; exact ih (index + 1) j (by omega) (by omega) hj2

/-- The registry indices `CreateGLTexture` writes are exactly index
`m_loadedTextures`, and only on success. -/
theorem createGLTexture_writes (s : SceneState) (filename tag : String)
    (image : Option Image) (textureID : Nat) :
    ∀ i ∈ (CreateGLTexture s filename tag image textureID).writes,
      i = s.m_loadedTextures := by
  cases image with
  | none => simp [CreateGLTexture]
  | some img =>
    by_cases h3 : img.colorChannels = 3
    · simp [CreateGLTexture, registerTexture, h3]
    · by_cases h4 : img.colorChannels = 4
      · simp [CreateGLTexture, registerTexture, h3, h4]
      · simp [CreateGLTexture, h3, h4]

/-- The stored tags view has the registry count as its length. -/
theorem registryTags_length (s : SceneState) :
    (registryTags s).length = s.m_loadedTextures := by
  simp [registryTags]

/-- Registering a texture appends its tag to the stored-tags view. -/
theorem registryTags_registerTexture (s : SceneState) (tag : String)
    (textureID : Nat) (console : List String) :
    registryTags (registerTexture s tag textureID console).state =
      registryTags s ++ [tag] := by
  simp [registerTexture, registryTags, List.range_succ]
  intro a ha
  have h : a ≠ s.m_loadedTextures := Nat.ne_of_lt ha
  simp [h]

/-- A `CreateGLTexture` call appends the tag to the stored-tags view exactly
when it succeeds, and otherwise leaves it unchanged. -/
theorem registryTags_create (s : SceneState) (filename tag : String)
    (image : Option Image) (textureID : Nat) :
    registryTags (CreateGLTexture s filename tag image textureID).state =
      registryTags s ++ (if loadSucceeds image then [tag] else []) := by
  cases image with
  | none => simp [CreateGLTexture, loadSucceeds]
  | some img =>
    by_cases h3 : img.colorChannels = 3
    · simp [CreateGLTexture, loadSucceeds, h3, registryTags_registerTexture]
    · by_cases h4 : img.colorChannels = 4
      · simp [CreateGLTexture, loadSucceeds, h3, h4, registryTags_registerTexture]
      · simp [CreateGLTexture, loadSucceeds, h3, h4]

/-- `glm::scale` acts on a homogeneous point by componentwise scaling. -/
theorem glmScale_action (sc v : Vec3) :
    (glmScale sc).mulVec (homog v) = homog (scaleVec sc v) := by
  funext i
  fin_cases i <;>
    simp [glmScale, homog, scaleVec, Matrix.mulVec, Matrix.dotProduct,
      Fin.sum_univ_four]

/-- The X-axis rotation matrix acts as `rotateXVec`. -/
theorem glmRotateX_action (c s : ℚ) (v : Vec3) :
    (glmRotateX c s).mulVec (homog v) = homog (rotateXVec c s v) := by
  funext i
  fin_cases i <;>
    simp [glmRotateX, homog, rotateXVec, Matrix.mulVec, Matrix.dotProduct,
      Fin.sum_univ_four]
  all_goals ring

/-- The Y-axis rotation matrix acts as `rotateYVec`. -/
theorem glmRotateY_action (c s : ℚ) (v : Vec3) :
    (glmRotateY c s).mulVec (homog v) = homog (rotateYVec c s v) := by
  funext i
  fin_cases i <;>
    simp [glmRotateY, homog, rotateYVec, Matrix.mulVec, Matrix.dotProduct,
      Fin.sum_univ_four]
  all_goals ring

/-- The Z-axis rotation matrix acts as `rotateZVec`. -/
theorem glmRotateZ_action (c s : ℚ) (v : Vec3) :
    (glmRotateZ c s).mulVec (homog v) = homog (rotateZVec c s v) := by
  funext i
  fin_cases i <;>
    simp [glmRotateZ, homog, rotateZVec, Matrix.mulVec, Matrix.dotProduct,
      Fin.sum_univ_four]
  all_goals ring

/-- `glm::translate` acts on a homogeneous point by adding the offset. -/
theorem glmTranslate_action (t v : Vec3) :
    (glmTranslate t).mulVec (homog v) = homog (translateVec t v) := by
  funext i
  fin_cases i <;>
    simp [glmTranslate, homog, translateVec, Matrix.mulVec, Matrix.dotProduct,
      Fin.sum_univ_four]
  all_goals ring

/-- C1: `CreateGLTexture(filename, tag)` returns `false` exactly when the
image fails to decode or the decoded channel count is neither 3 nor 4, and in
each failure case the console output ends with the corresponding error line;
it returns `true` otherwise. -/
theorem createGLTexture_false_iff (s : SceneState) (filename tag : String)
    (image : Option Image) (textureID : Nat) :
    ((CreateGLTexture s filename tag image textureID).ret = false ↔
      image = none ∨ ∃ img, image = some img ∧
        img.colorChannels ≠ 3 ∧ img.colorChannels ≠ 4)
    ∧ ((CreateGLTexture s filename tag image textureID).ret = false →
      (CreateGLTexture s filename tag image textureID).console.getLast? =
        some (failureLine filename image)) := by
  cases image with
  | none => simp [CreateGLTexture, failureLine]
  | some img =>
    by_cases h3 : img.colorChannels = 3
    · simp [CreateGLTexture, registerTexture, h3]
    · by_cases h4 : img.colorChannels = 4
      · simp [CreateGLTexture, registerTexture, h3, h4]
      · simp [CreateGLTexture, failureLine, h3, h4]

/-- C2: when `CreateGLTexture` returns `false` the whole registry state is
unchanged; when it returns `true`, `m_loadedTextures` grows by exactly 1, the
slot at the old count now carries the new handle and the given tag, and every
other slot keeps its prior value. -/
theorem createGLTexture_registry (s : SceneState) (filename tag : String)
    (image : Option Image) (textureID : Nat) :
    ((CreateGLTexture s filename tag image textureID).ret = false →
      (CreateGLTexture s filename tag image textureID).state = s)
    ∧ ((CreateGLTexture s filename tag image textureID).ret = true →
      (CreateGLTexture s filename tag image textureID).state.m_loadedTextures =
          s.m_loadedTextures + 1
        ∧ (CreateGLTexture s filename tag image textureID).state.m_textureIDs
            s.m_loadedTextures = { ID := textureID, tag := tag }
        ∧ ∀ i, i ≠ s.m_loadedTextures →
            (CreateGLTexture s filename tag image textureID).state.m_textureIDs i =
              s.m_textureIDs i) := by
  cases image with
  | none => simp [CreateGLTexture]
  | some img =>
    by_cases h3 : img.colorChannels = 3
    · simp [CreateGLTexture, registerTexture, h3]
      intro i hi
      simp [hi]
    · by_cases h4 : img.colorChannels = 4
      · simp [CreateGLTexture, registerTexture, h3, h4]
        intro i hi
        simp [hi]
      · simp [CreateGLTexture, h3, h4]

/-- C3 evaluation: `DestroyGLTextures` calls `glGenTextures(1, &m_textureIDs[i].ID)`,
so with one loaded texture whose handle is 7, and `glGenTextures` yielding the
fresh name 99, the stored entry's ID is overwritten from 7 to 99: an existing
registry entry does not keep its prior value, contrary to the claim. -/
theorem destroyGLTextures_overwrites_entry :
    oneTextureScene.m_textureIDs 0 = { ID := 7, tag := "desk" }
    ∧ (DestroyGLTextures oneTextureScene fun _ => 99).m_textureIDs 0 =
        { ID := 99, tag := "desk" }
    ∧ (DestroyGLTextures oneTextureScene fun _ => 99).m_textureIDs 0 ≠
        oneTextureScene.m_textureIDs 0 := by
  refine ⟨rfl, ?_, ?_⟩ <;>
    simp [DestroyGLTextures, destroyGLTexturesLoop, oneTextureScene]

/-- C4: both versions of `SetTransformations` compute the model matrix as the
one fixed product `translate * rotateX * rotateY * rotateZ * scale`; acting on
any homogeneous point this scales first, then rotates about Z, Y, X, then
translates; the two file versions agree; and the only branch is the
null-shader guard (the matrix is flag-independent, the uniform is set exactly
when the shader manager is present). -/
theorem setTransformations_fixed_order (cX sX cY sY cZ sZ : ℚ)
    (scaleXYZ positionXYZ v : Vec3) (shaderPresent : Bool) :
    (SetTransformations_7_1 cX sX cY sY cZ sZ scaleXYZ positionXYZ shaderPresent).1 =
      glmTranslate positionXYZ * glmRotateX cX sX * glmRotateY cY sY *
        glmRotateZ cZ sZ * glmScale scaleXYZ
    ∧ (SetTransformations_7_1 cX sX cY sY cZ sZ scaleXYZ positionXYZ
          shaderPresent).1.mulVec (homog v) =
        homog (translateVec positionXYZ (rotateXVec cX sX
          (rotateYVec cY sY (rotateZVec cZ sZ (scaleVec scaleXYZ v)))))
    ∧ SetTransformations_3_2 cX sX cY sY cZ sZ scaleXYZ positionXYZ shaderPresent =
        SetTransformations_7_1 cX sX cY sY cZ sZ scaleXYZ positionXYZ shaderPresent
    ∧ SetTransformations_7_1 cX sX cY sY cZ sZ scaleXYZ positionXYZ true =
        ((SetTransformations_7_1 cX sX cY sY cZ sZ scaleXYZ positionXYZ shaderPresent).1,
          some ("model",
            (SetTransformations_7_1 cX sX cY sY cZ sZ scaleXYZ positionXYZ shaderPresent).1))
    ∧ SetTransformations_7_1 cX sX cY sY cZ sZ scaleXYZ positionXYZ false =
        ((SetTransformations_7_1 cX sX cY sY cZ sZ scaleXYZ positionXYZ shaderPresent).1,
          none) := by
  refine ⟨rfl, ?_, rfl, rfl, rfl⟩
  show (glmTranslate positionXYZ * glmRotateX cX sX * glmRotateY cY sY *
      glmRotateZ cZ sZ * glmScale scaleXYZ).mulVec (homog v) = _
  rw [← Matrix.mulVec_mulVec, ← Matrix.mulVec_mulVec, ← Matrix.mulVec_mulVec,
    ← Matrix.mulVec_mulVec, glmScale_action, glmRotateZ_action, glmRotateY_action,
    glmRotateX_action, glmTranslate_action]

/-- C5: `FindTextureID(tag)` scans the first `m_loadedTextures` slots from
index 0: either no slot carries the tag and it returns `-1`, or it returns the
ID field of the first slot carrying the tag. -/
theorem findTextureID_linear_scan (s : SceneState) (tag : String) :
    (FindTextureID s tag = -1 ∧
      ∀ k < s.m_loadedTextures, (s.m_textureIDs k).tag ≠ tag)
    ∨ (∃ j < s.m_loadedTextures, (s.m_textureIDs j).tag = tag ∧
        (∀ k < j, (s.m_textureIDs k).tag ≠ tag) ∧
        FindTextureID s tag = ((s.m_textureIDs j).ID : Int)) := by
  rcases findLoops_spec s tag 0 with ⟨hnone, h1, _⟩ | ⟨j, _, hj2, hj3, hj4, hj5, _⟩
  · exact Or.inl ⟨h1, fun k hk => hnone k (Nat.zero_le k) hk⟩
  · exact Or.inr ⟨j, hj2, hj3, fun k hk => hj4 k (Nat.zero_le k) hk, hj5⟩

/-- C6 evaluation: with the two startup materials defined and a tag present in
neither, `FindMaterial` still returns `true` and writes nothing to its output
parameter (the loop's `bFound` is ignored by the final `return(true)`),
contrary to the claim that an absent tag yields `false`. -/
theorem findMaterial_true_on_absent_tag :
    (∀ m ∈ (DefineObjectMaterials emptyScene).m_objectMaterials, m.tag ≠ "missing")
    ∧ FindMaterial (DefineObjectMaterials emptyScene) "missing" = (true, none) := by
  constructor
  · intro m hm
    simp [DefineObjectMaterials, emptyScene, light1, light2] at hm
    rcases hm with rfl | rfl <;> simp [light1, light2]
  · simp [FindMaterial, findMaterialLoop, DefineObjectMaterials, emptyScene,
      light1, light2]

/-- C7: `LoadSceneTextures` runs all five loads in their fixed order and then
`BindGLTextures`; a failed load neither retries nor blocks later loads, so the
appended tags are exactly the tags of the successful loads in order, and when
the registry starts empty the final count is the number of loads that
succeeded. -/
theorem loadSceneTextures_no_propagation (s : SceneState)
    (decode : String → Option Image) (glGen : Nat → Nat) :
    registryTags (LoadSceneTextures s decode glGen).1 =
      registryTags s ++ successTags decode
    ∧ (LoadSceneTextures s decode glGen).1.m_loadedTextures =
        s.m_loadedTextures + (successTags decode).length
    ∧ (LoadSceneTextures s decode glGen).2 =
        BindGLTextures (LoadSceneTextures s decode glGen).1
    ∧ (s.m_loadedTextures = 0 →
        (LoadSceneTextures s decode glGen).1.m_loadedTextures =
          (successTags decode).length) := by
  have h1 : registryTags (LoadSceneTextures s decode glGen).1 =
      registryTags s ++ successTags decode := by
    simp only [LoadSceneTextures]
    rw [registryTags_create, registryTags_create, registryTags_create,
      registryTags_create, registryTags_create]
    by_cases c1 : loadSucceeds (decode "textures/keyboard.jpg") <;>
    by_cases c2 : loadSucceeds (decode "textures/mousepad.jpg") <;>
    by_cases c3 : loadSucceeds (decode "textures/desk.jpg") <;>
    by_cases c4 : loadSucceeds (decode "textures/monitor.jpg") <;>
    by_cases c5 : loadSucceeds (decode "textures/wall.jpg") <;>
    simp [successTags, sceneTexturePairs, c1, c2, c3, c4, c5]
  have h2 : (LoadSceneTextures s decode glGen).1.m_loadedTextures =
      s.m_loadedTextures + (successTags decode).length := by
    have hl := congrArg List.length h1
    simpa [registryTags_length] using hl
  exact ⟨h1, h2, rfl, fun h0 => by omega⟩

/-- C8: every registry index read by `FindTextureID`, `FindTextureSlot` or
`BindGLTextures` is below `m_loadedTextures`; `CreateGLTexture` writes only
index `m_loadedTextures`, which is below the 16-slot capacity whenever
`m_loadedTextures < 16`; hence `index < count ≤ 16` keeps every access in
bounds. -/
theorem registry_accesses_in_bounds (s : SceneState) (tag filename newTag : String)
    (image : Option Image) (textureID : Nat) :
    (∀ i ∈ findTextureIDReads s tag, i < s.m_loadedTextures)
    ∧ (∀ i ∈ findTextureSlotReads s tag, i < s.m_loadedTextures)
    ∧ (∀ b ∈ BindGLTextures s, b.1 < s.m_loadedTextures)
    ∧ (∀ i ∈ (CreateGLTexture s filename newTag image textureID).writes,
        i = s.m_loadedTextures)
    ∧ (s.m_loadedTextures < 16 →
        ∀ i ∈ (CreateGLTexture s filename newTag image textureID).writes, i < 16)
    ∧ (s.m_loadedTextures ≤ 16 →
        (∀ i ∈ findTextureIDReads s tag, i < 16) ∧
        (∀ i ∈ findTextureSlotReads s tag, i < 16) ∧
        (∀ b ∈ BindGLTextures s, b.1 < 16)) := by
  have hid : ∀ i ∈ findTextureIDReads s tag, i < s.m_loadedTextures :=
    fun i hi => (findTextureIDLoop_reads_lt s tag (s.m_loadedTextures - 0) 0 le_rfl i hi).2
  have hslot : ∀ i ∈ findTextureSlotReads s tag, i < s.m_loadedTextures :=
    fun i hi => (findTextureSlotLoop_reads_lt s tag (s.m_loadedTextures - 0) 0 le_rfl i hi).2
  have hbind : ∀ b ∈ BindGLTextures s, b.1 < s.m_loadedTextures :=
    fun b hb => (bindGLTexturesLoop_elts s (s.m_loadedTextures - 0) 0 le_rfl b hb).2.1
  have hw := createGLTexture_writes s filename newTag image textureID
  refine ⟨hid, hslot, hbind, hw, ?_, ?_⟩
  · intro h16 i hi
    have := hw i hi
    omega
  · intro h16
    exact ⟨fun i hi => by have := hid i hi; omega,
      fun i hi => by have := hslot i hi; omega,
      fun b hb => by have := hbind b hb; omega⟩

/-- C9: `FindTextureID` and `FindTextureSlot` agree: both return `-1` exactly
when no loaded slot carries the tag, and when `FindTextureSlot` returns a slot
index `j`, that slot carries the tag and its ID field is what `FindTextureID`
returns. -/
theorem findTextureID_findTextureSlot_agree (s : SceneState) (tag : String) :
    (FindTextureID s tag = -1 ↔ FindTextureSlot s tag = -1)
    ∧ (FindTextureSlot s tag = -1 ↔
        ∀ k < s.m_loadedTextures, (s.m_textureIDs k).tag ≠ tag)
    ∧ (∀ j : Nat, FindTextureSlot s tag = (j : Int) →
        ((s.m_textureIDs j).ID : Int) = FindTextureID s tag ∧
        j < s.m_loadedTextures ∧ (s.m_textureIDs j).tag = tag) := by
  rcases findLoops_spec s tag 0 with ⟨hnone, h1, h2⟩ | ⟨j0, _, hj2, hj3, hj4, hj5, hj6⟩
  · refine ⟨by rw [FindTextureID, FindTextureSlot, h1, h2], ?_, ?_⟩
    · rw [FindTextureSlot, h2]
      exact ⟨fun _ k hk => hnone k (Nat.zero_le k) hk, fun _ => rfl⟩
    · intro j hj
      rw [FindTextureSlot, h2] at hj
      omega
  · have hid : FindTextureID s tag = ((s.m_textureIDs j0).ID : Int) := hj5
    have hslot : FindTextureSlot s tag = (j0 : Int) := hj6
    refine ⟨?_, ?_, ?_⟩
    · rw [hid, hslot]
      constructor <;> intro h <;> omega
    · rw [hslot]
      constructor
      · intro h; omega
      · intro h; exact absurd hj3 (h j0 hj2)
    · intro j hj
      rw [hslot] at hj
      have : j = j0 := by omega
      subst this
      exact ⟨hid.symm, hj2, hj3⟩

/-- C10: with the shader present, `SetShaderTexture` always sets `bUseTexture`
to true and passes `FindTextureSlot(tag)` to the sampler, so an unknown tag
passes the sentinel `-1`; a known tag passes the registry slot index `j` (not
the GL handle), and `BindGLTextures` bound exactly that slot's texture ID on
unit `GL_TEXTURE0 + j`. -/
theorem setShaderTexture_sampler_slot (s : SceneState) (tag : String) :
    SetShaderTexture s true tag =
      [ShaderCall.setInt "bUseTexture" 1,
       ShaderCall.setSampler2D "objectTexture" (FindTextureSlot s tag)]
    ∧ ((∀ k < s.m_loadedTextures, (s.m_textureIDs k).tag ≠ tag) →
        FindTextureSlot s tag = -1)
    ∧ (∀ j : Nat, FindTextureSlot s tag = (j : Int) →
        (s.m_textureIDs j).tag = tag ∧
        (j, GL_TEXTURE0 + j, (s.m_textureIDs j).ID) ∈ BindGLTextures s) := by
  refine ⟨rfl, ?_, ?_⟩
  · intro habsent
    rcases findLoops_spec s tag 0 with ⟨_, _, h2⟩ | ⟨j, _, hj2, hj3, _, _, _⟩
    · exact h2
    · exact absurd hj3 (habsent j hj2)
  · intro j hj
    rcases findLoops_spec s tag 0 with ⟨_, _, h2⟩ | ⟨j0, _, hj2, hj3, _, _, hj6⟩
    · rw [FindTextureSlot, h2] at hj
      omega
    · rw [FindTextureSlot, hj6] at hj
      have : j = j0 := by omega
      subst this
      exact ⟨hj3, bindGLTexturesLoop_mem s (s.m_loadedTextures - 0) 0 j le_rfl
        (Nat.zero_le j) hj2⟩

end CS330
